import Mathlib

/-!
Shallow embedding of `packages/backend-core/src/events/identification.ts`.

The TypeScript module resolves analytics identities (installation / tenant /
user), formats distinct ids, derives a globally unique tenant id for
self-hosted deployments (cache-aside over a persisted settings document), and
emits identify / identifyGroup calls to an event sink.

Modelling conventions:
- async stateful code becomes explicit state passing over `WState` (the
  per-tenant document store, the per-tenant TTL cache entry, and a counter
  feeding the random-id generator `gen : Nat -> String`);
- fallible code returns `Except IdErr`; the `throw new Error("Unknown
  identity type")` branch becomes `.error .unknownIdentityType`, and a
  missing settings document (a TypeError on `config.config` in JS) becomes
  `.error .missingSettingsDoc`;
- the event sink (`processors.identify` / `processors.identifyGroup`) is
  modelled by returning the list of emitted `SinkCall`s;
- JS objects become structures; a field that the source never assigns on a
  given record is `none` in the model (absent in the JS object).
-/

/-- Hosting mode, from the `Hosting` enum of the types package
(`SELF`/`CLOUD`). -/
inductive Hosting where
  | self
  | cloud
deriving Repr, DecidableEq

/-- Modelled from the spec: the runtime string values of the `IdentityType`
enum (the enum itself lives in `@budibase/types`, outside the analysed
source); section 8 of the spec pins them via
`formatDistinctId("abc", INSTALLATION) == "$installation_abc"` etc. -/
def IdentityType.INSTALLATION : String := "installation"

/-- Modelled from the spec: runtime string value of `IdentityType.TENANT`. -/
def IdentityType.TENANT : String := "tenant"

/-- Modelled from the spec: runtime string value of `IdentityType.USER`. -/
def IdentityType.USER : String := "user"

/-- The inner `config` object of a settings document; `uniqueTenantId` is the
one field `getUniqueTenantId` reads and writes, `otherSettings` stands for
every other setting the document carries. -/
structure InnerConfig where
  uniqueTenantId : Option String
  otherSettings : List (String × String)
deriving Repr, DecidableEq

/-- A persisted `SettingsConfig` document: the `config` sub-object plus the
document-level fields (`_id`, `_rev`, `type`, ...) abstracted as `docMeta`. -/
structure SettingsConfig where
  config : InnerConfig
  docMeta : List (String × String)
deriving Repr, DecidableEq

/-- World state threaded through the embedded functions: the per-tenant
settings document store (`ConfigStore`), the per-tenant entry of the process
TTL cache for `CacheKeys.UNIQUE_TENANT_ID` (the constant key is scoped to the
tenant entered via `doInTenant`, so the cache is keyed by tenant id here),
and the counter consumed by the random-id generator. -/
structure WState where
  store : String → Option SettingsConfig
  cache : String → Option String
  genCounter : Nat

/-- Pointwise update of a keyed lookup (a `db.put` / cache store). -/
def upd {α : Type} (f : String → Option α) (k : String) (v : α) :
    String → Option α :=
  fun k2 => if k2 = k then some v else f k2

/-- Errors the embedded functions can surface. -/
inductive IdErr where
  | unknownIdentityType
  | missingSettingsDoc
deriving Repr, DecidableEq

/-- Environment flags consumed by the module (`env.SELF_HOSTED`,
`env.SERVICE`). -/
structure Env where
  SELF_HOSTED : Bool
  SERVICE : String
deriving Repr, DecidableEq

/-- `getHostingFromEnv`: `env.SELF_HOSTED ? Hosting.SELF : Hosting.CLOUD`. -/
def getHostingFromEnv (env : Env) : Hosting :=
  if env.SELF_HOSTED then Hosting.self else Hosting.cloud

/-- `isAccountPortal`: `env.SERVICE === "account-portal"`. -/
def isAccountPortal (env : Env) : Bool :=
  env.SERVICE = "account-portal"

/-- `getInstallationId`: the constant `"account-portal"` for the account
portal service role, otherwise the installation registry's
`getInstall().installId`, passed in as `installId`. -/
def getInstallationId (env : Env) (installId : String) : String :=
  if isAccountPortal env then "account-portal" else installId

/-- `getUniqueTenantId(tenantId)`: inside `doInTenant(tenantId, ...)`,
`withCache(UNIQUE_TENANT_ID, ONE_DAY, producer)` — on a cache hit return the
cached value; on a miss read the tenant's settings document, return the
persisted `uniqueTenantId` when set, otherwise mint
`hashing.newid() + "_" + tenantId`, write it into `config.uniqueTenantId`,
`db.put` the document, and return it; `withCache` stores the producer's
result in the cache either way. `gen s.genCounter` models the fresh
`hashing.newid()` value. -/
def getUniqueTenantId (gen : Nat → String) (tenantId : String) (s : WState) :
    Except IdErr (String × WState) :=
  match s.cache tenantId with
  | some v => .ok (v, s)
  | none =>
    match s.store tenantId with
    | none => .error .missingSettingsDoc
    | some config =>
      match config.config.uniqueTenantId with
      | some u => .ok (u, { s with cache := upd s.cache tenantId u })
      | none =>
        let uniqueTenantId := gen s.genCounter ++ "_" ++ tenantId
        let config2 : SettingsConfig :=
          { config with
            config := { config.config with uniqueTenantId := some uniqueTenantId } }
        .ok (uniqueTenantId,
          { store := upd s.store tenantId config2,
            cache := upd s.cache tenantId uniqueTenantId,
            genCounter := s.genCounter + 1 })

/-- `getEventTenantId(tenantId)`: delegate to `getUniqueTenantId` when
self-hosted, otherwise return the tenant id unchanged (cloud tenant ids are
already unique). -/
def getEventTenantId (env : Env) (gen : Nat → String) (tenantId : String)
    (s : WState) : Except IdErr (String × WState) :=
  if env.SELF_HOSTED then getUniqueTenantId gen tenantId s
  else .ok (tenantId, s)

/-- `formatDistinctId(id, type)`: prefix `"$" + type + "_"` for the
INSTALLATION and TENANT kinds, identity otherwise. -/
def formatDistinctId (id : String) (type : String) : String :=
  if type = IdentityType.INSTALLATION ∨ type = IdentityType.TENANT then
    "$" ++ type ++ "_" ++ id
  else
    id

/-- The `CloudAccount` extension of `Account` from `@budibase/types`.
Modelled from the spec: the types package is outside the analysed source;
per the spec only cloud accounts carry the linked platform-user id
(`budibaseUserId`), so the extension is an optional component of `Account`
and `isCloudAccount` tests its presence. -/
structure CloudExtension where
  budibaseUserId : Option String
deriving Repr, DecidableEq

/-- An `Account` record, with the fields this module reads: `accountId`,
`tenantId`, `hosting`, `verified`, `profession`, `size`, the SSO marker with
its `providerType`, and the optional `CloudAccount` extension. -/
structure Account where
  accountId : String
  tenantId : String
  hosting : Hosting
  verified : Bool
  profession : Option String
  size : Option String
  isSSO : Bool
  providerType : Option String
  cloudExtension : Option CloudExtension
deriving Repr, DecidableEq

/-- Modelled from the spec: the `isCloudAccount` type guard of
`@budibase/types` holds exactly of accounts carrying the `CloudAccount`
extension. -/
def isCloudAccount (account : Account) : Bool :=
  account.cloudExtension.isSome

/-- `account.budibaseUserId`: present only on cloud accounts. -/
def Account.budibaseUserId (account : Account) : Option String :=
  match account.cloudExtension with
  | some c => c.budibaseUserId
  | none => none

/-- A `User` record with the fields `identifyUser` reads; `builderGlobal`
and `adminGlobal` model the optional chains `user.builder?.global` and
`user.admin?.global`. -/
structure User where
  _id : String
  tenantId : String
  builderGlobal : Option Bool
  adminGlobal : Option Bool
  providerType : Option String
deriving Repr, DecidableEq

/-- The ambient identity context returned by `identityCtx.getIdentity()`:
its runtime `type` string, the context document id `_id` (read in the USER
branch), and the optional account attached to a `UserContext`. -/
structure IdentityContext where
  type : String
  _id : String
  account : Option Account
deriving Repr, DecidableEq

/-- An identity record handed to `identify`. JS objects are structurally
typed, so one structure covers every record the module builds (including the
spread `{ ...group, id }` records); a field is `none` when the source does
not assign it on that record. -/
structure Identity where
  id : String
  type : String
  hosting : Hosting
  installationId : Option String
  tenantId : Option String
  verified : Option Bool
  accountHolder : Option Bool
  providerType : Option String
  builder : Option Bool
  admin : Option Bool
  version : Option String
  profession : Option String
  companySize : Option String
deriving Repr, DecidableEq

/-- A group record handed to `identifyGroup` (`InstallationGroup` or
`TenantGroup`). -/
structure GroupRecord where
  id : String
  type : String
  hosting : Hosting
  version : Option String
  installationId : Option String
  profession : Option String
  companySize : Option String
deriving Repr, DecidableEq

/-- The spread `{ ...group, id: ... }` viewed as an identity record: every
group field carried over, the `id` overridden at the call site. -/
def GroupRecord.toIdentity (g : GroupRecord) : Identity :=
  { id := g.id
    type := g.type
    hosting := g.hosting
    installationId := g.installationId
    tenantId := none
    verified := none
    accountHolder := none
    providerType := none
    builder := none
    admin := none
    version := g.version
    profession := g.profession
    companySize := g.companySize }

/-- A call emitted to the event sink (`processors.identify` /
`processors.identifyGroup`), with the optional timestamp passed through. -/
inductive SinkCall where
  | identify (identity : Identity) (timestamp : Option Nat)
  | identifyGroup (group : GroupRecord) (timestamp : Option Nat)
deriving Repr, DecidableEq

/-- The `identityType` local of `getCurrentIdentity`: `IdentityType.TENANT`
when no ambient identity context is present, else the context's type. -/
def identityTypeOf (identityContext : Option IdentityContext) : String :=
  match identityContext with
  | none => IdentityType.TENANT
  | some ctx => ctx.type

/-- `getCurrentIdentity()`: dispatch on the ambient identity context's kind
(defaulting to TENANT when absent) and build the corresponding identity
record; any other kind throws `"Unknown identity type"`. `ctxTenantId`
models `context.getTenantId()` and `installId` the installation registry's
id. -/
def getCurrentIdentity (env : Env) (installId : String) (gen : Nat → String)
    (identityContext : Option IdentityContext) (ctxTenantId : String)
    (s : WState) : Except IdErr (Identity × WState) :=
  let identityType := identityTypeOf identityContext
  if identityType = IdentityType.INSTALLATION then
    let installationId := getInstallationId env installId
    let hosting := getHostingFromEnv env
    .ok
      ({ id := formatDistinctId installationId identityType
         hosting := hosting
         type := identityType
         installationId := some installationId
         tenantId := none
         verified := none
         accountHolder := none
         providerType := none
         builder := none
         admin := none
         version := none
         profession := none
         companySize := none }, s)
  else if identityType = IdentityType.TENANT then
    let installationId := getInstallationId env installId
    match getEventTenantId env gen ctxTenantId s with
    | .error e => .error e
    | .ok (tenantId, s1) =>
      let hosting := getHostingFromEnv env
      .ok
        ({ id := formatDistinctId tenantId identityType
           type := identityType
           hosting := hosting
           installationId := some installationId
           tenantId := some tenantId
           verified := none
           accountHolder := none
           providerType := none
           builder := none
           admin := none
           version := none
           profession := none
           companySize := none }, s1)
  else if identityType = IdentityType.USER then
    match identityContext with
    | none =>
      -- unreachable: an absent context was mapped to TENANT above
      .error .unknownIdentityType
    | some userContext =>
      match getEventTenantId env gen ctxTenantId s with
      | .error e => .error e
      | .ok (tenantId, s1) =>
        let installationId := getInstallationId env installId
        let hosting :=
          match userContext.account with
          | some account => account.hosting
          | none => getHostingFromEnv env
        .ok
          ({ id := userContext._id
             type := identityType
             hosting := hosting
             installationId := some installationId
             tenantId := some tenantId
             verified := none
             accountHolder := none
             providerType := none
             builder := none
             admin := none
             version := none
             profession := none
             companySize := none }, s1)
  else
    .error .unknownIdentityType

/-- `identifyInstallationGroup(installId, timestamp?)`: build the
`InstallationGroup` record, emit it via `identifyGroup`, then emit the
linking identity `{ ...group, id: "$" + type + "_" + id }` via `identify`.
`pkgVersion` models `require("../../package.json").version`. -/
def identifyInstallationGroup (env : Env) (pkgVersion : String)
    (installId : String) (timestamp : Option Nat) : List SinkCall :=
  let id := installId
  let type := IdentityType.INSTALLATION
  let hosting := getHostingFromEnv env
  let group : GroupRecord :=
    { id := id
      type := type
      hosting := hosting
      version := some pkgVersion
      installationId := none
      profession := none
      companySize := none }
  [SinkCall.identifyGroup group timestamp,
   SinkCall.identify
     { group.toIdentity with id := "$" ++ type ++ "_" ++ id } timestamp]

/-- `identifyTenantGroup(tenantId, account, timestamp?)`: derive the event
tenant id, build the `TenantGroup` record (hosting / profession /
companySize from the account when present, hosting from the environment
otherwise), emit it via `identifyGroup`, then emit the linking identity
`{ ...group, id: "$" + type + "_" + id }` via `identify`. -/
def identifyTenantGroup (env : Env) (installId : String) (gen : Nat → String)
    (tenantId : String) (account : Option Account) (timestamp : Option Nat)
    (s : WState) : Except IdErr (List SinkCall × WState) :=
  match getEventTenantId env gen tenantId s with
  | .error e => .error e
  | .ok (id, s1) =>
    let type := IdentityType.TENANT
    let installationId := getInstallationId env installId
    let hosting :=
      match account with
      | some a => a.hosting
      | none => getHostingFromEnv env
    let profession :=
      match account with
      | some a => a.profession
      | none => none
    let companySize :=
      match account with
      | some a => a.size
      | none => none
    let group : GroupRecord :=
      { id := id
        type := type
        hosting := hosting
        version := none
        installationId := some installationId
        profession := profession
        companySize := companySize }
    .ok
      ([SinkCall.identifyGroup group timestamp,
        SinkCall.identify
          { group.toIdentity with id := "$" ++ type ++ "_" ++ id } timestamp],
       s1)

/-- `identifyUser(user, account, timestamp?)`: build the full `UserIdentity`
record (builder / admin flags defaulted to false, account-holder and
verified flags from comparing the account's linked user id with the user,
hosting from the account when present) and emit it via `identify`. -/
def identifyUser (env : Env) (installId : String) (gen : Nat → String)
    (user : User) (account : Option Account) (timestamp : Option Nat)
    (s : WState) : Except IdErr (List SinkCall × WState) :=
  let id := user._id
  match getEventTenantId env gen user.tenantId s with
  | .error e => .error e
  | .ok (tenantId, s1) =>
    let type := IdentityType.USER
    let builder := user.builderGlobal.getD false
    let admin := user.adminGlobal.getD false
    let providerType := user.providerType
    let accountHolder :=
      match account with
      | some a => a.budibaseUserId = some user._id
      | none => false
    let verified :=
      match account with
      | some a => if a.budibaseUserId = some user._id then a.verified else false
      | none => false
    let installationId := getInstallationId env installId
    let hosting :=
      match account with
      | some a => a.hosting
      | none => getHostingFromEnv env
    let identity : Identity :=
      { id := id
        type := type
        hosting := hosting
        installationId := some installationId
        tenantId := some tenantId
        verified := some verified
        accountHolder := some accountHolder
        providerType := providerType
        builder := some builder
        admin := some admin
        version := none
        profession := none
        companySize := none }
    .ok ([SinkCall.identify identity timestamp], s1)

/-- `identifyAccount(account)`: emit a `UserIdentity` for the account via
`identify` (no timestamp); the id is `account.accountId`, replaced by the
truthy `account.budibaseUserId` on a cloud account; `providerType` only for
SSO accounts; `accountHolder` is always true; no builder or admin field is
assigned. -/
def identifyAccount (env : Env) (installId : String) (account : Account) :
    List SinkCall :=
  let id := account.accountId
  let tenantId := account.tenantId
  let type := IdentityType.USER
  let providerType := if account.isSSO then account.providerType else none
  let verified := account.verified
  let accountHolder := true
  let hosting := account.hosting
  let installationId := getInstallationId env installId
  let id2 :=
    if isCloudAccount account then
      match account.budibaseUserId with
      | some b => if b = "" then id else b
      | none => id
    else id
  let identity : Identity :=
    { id := id2
      type := type
      hosting := hosting
      installationId := some installationId
      tenantId := some tenantId
      verified := some verified
      accountHolder := some accountHolder
      providerType := providerType
      builder := none
      admin := none
      version := none
      profession := none
      companySize := none }
  [SinkCall.identify identity none]

/-! ## Concrete fixtures used by witnesses and counterexamples -/

/-- A settings document whose `uniqueTenantId` is already persisted. -/
def wCfgSet : SettingsConfig :=
  { config := { uniqueTenantId := some "r9_t1", otherSettings := [("company", "acme")] }
    docMeta := [("_id", "config_settings")] }

/-- A settings document whose `uniqueTenantId` is unset. -/
def wCfgUnset : SettingsConfig :=
  { config := { uniqueTenantId := none, otherSettings := [("company", "acme")] }
    docMeta := [("_id", "config_settings")] }

/-- A deterministic stand-in for the random-id generator. -/
def wGen : Nat → String := fun n => "rnd" ++ toString n

/-- World with tenant `t1` holding an already-initialised document and an
empty cache (a fresh process). -/
def wStateSet : WState :=
  { store := fun k => if k = "t1" then some wCfgSet else none
    cache := fun _ => none
    genCounter := 0 }

/-- World with tenant `t1` holding an uninitialised document and an empty
cache. -/
def wStateUnset : WState :=
  { store := fun k => if k = "t1" then some wCfgUnset else none
    cache := fun _ => none
    genCounter := 0 }

/-- The world after `getUniqueTenantId` generates an id for `t1` in
`wStateUnset`. -/
def wStateAfter : WState :=
  { store := upd wStateUnset.store "t1"
      { wCfgUnset with
        config := { wCfgUnset.config with uniqueTenantId := some "rnd0_t1" } }
    cache := upd wStateUnset.cache "t1" "rnd0_t1"
    genCounter := 1 }

/-- A cloud environment and a self-hosted environment. -/
def wEnvCloud : Env := { SELF_HOSTED := false, SERVICE := "app-service" }

/-- A self-hosted environment. -/
def wEnvSelf : Env := { SELF_HOSTED := true, SERVICE := "app-service" }

/-! ## Claims -/

/-- C1: on a cache miss (fresh process / evicted cache), `getUniqueTenantId t`
returns the persisted `uniqueTenantId` of the tenant's settings document when
that field is set, caching it without touching the store; when the field is
unset it returns the freshly minted `{randomId}_{t}` string and persists
exactly that string into the document's `uniqueTenantId` field. -/
theorem getUniqueTenantId_persisted_truth (gen : Nat → String) (t : String)
    (s : WState) (cfg : SettingsConfig)
    (hcache : s.cache t = none) (hstore : s.store t = some cfg) :
    (∀ u, cfg.config.uniqueTenantId = some u →
      getUniqueTenantId gen t s = .ok (u, { s with cache := upd s.cache t u })) ∧
    (cfg.config.uniqueTenantId = none →
      getUniqueTenantId gen t s =
        .ok (gen s.genCounter ++ "_" ++ t,
          { store := upd s.store t
              { cfg with config :=
                { cfg.config with
                  uniqueTenantId := some (gen s.genCounter ++ "_" ++ t) } }
            cache := upd s.cache t (gen s.genCounter ++ "_" ++ t)
            genCounter := s.genCounter + 1 })) := by
  constructor
  · intro u hu
    simp [getUniqueTenantId, hcache, hstore, hu]
  · intro hu
    simp [getUniqueTenantId, hcache, hstore, hu]

/-- Witness for C1: both branches at tenant `t1`, once with the persisted
value `r9_t1` present and once with the field unset. -/
theorem getUniqueTenantId_persisted_truth_witness :
    (wStateSet.cache "t1" = none ∧ wStateSet.store "t1" = some wCfgSet ∧
      wCfgSet.config.uniqueTenantId = some "r9_t1" ∧
      getUniqueTenantId wGen "t1" wStateSet =
        .ok ("r9_t1", { wStateSet with cache := upd wStateSet.cache "t1" "r9_t1" })) ∧
    (wStateUnset.cache "t1" = none ∧ wStateUnset.store "t1" = some wCfgUnset ∧
      wCfgUnset.config.uniqueTenantId = none ∧
      getUniqueTenantId wGen "t1" wStateUnset =
        .ok (wGen wStateUnset.genCounter ++ "_" ++ "t1",
          { store := upd wStateUnset.store "t1"
              { wCfgUnset with config :=
                { wCfgUnset.config with
                  uniqueTenantId := some (wGen wStateUnset.genCounter ++ "_" ++ "t1") } }
            cache := upd wStateUnset.cache "t1" (wGen wStateUnset.genCounter ++ "_" ++ "t1")
            genCounter := wStateUnset.genCounter + 1 })) :=
  ⟨⟨rfl, rfl, rfl,
     (getUniqueTenantId_persisted_truth wGen "t1" wStateSet wCfgSet rfl rfl).1 "r9_t1" rfl⟩,
   ⟨rfl, rfl, rfl,
     (getUniqueTenantId_persisted_truth wGen "t1" wStateUnset wCfgUnset rfl rfl).2 rfl⟩⟩

/-- C3: when the deployment is not self-hosted (CLOUD), `getEventTenantId`
returns its input unchanged and leaves the world (store, cache, generator)
untouched. -/
theorem getEventTenantId_cloud_identity (env : Env) (gen : Nat → String)
    (tenantId : String) (s : WState) (h : env.SELF_HOSTED = false) :
    getEventTenantId env gen tenantId s = .ok (tenantId, s) := by
  simp [getEventTenantId, h]

/-- Witness for C3 at the concrete cloud environment and tenant `t1`. -/
theorem getEventTenantId_cloud_identity_witness :
    wEnvCloud.SELF_HOSTED = false ∧
    getEventTenantId wEnvCloud wGen "t1" wStateSet = .ok ("t1", wStateSet) :=
  ⟨rfl, getEventTenantId_cloud_identity wEnvCloud wGen "t1" wStateSet rfl⟩

/-- After a successful `getUniqueTenantId`, the tenant's cache entry holds
the returned value (the `withCache` wrapper memoizes the producer's result,
and on a hit the entry already held it). -/
theorem cache_after_getUniqueTenantId (gen : Nat → String) (t u : String)
    (s s1 : WState) (h : getUniqueTenantId gen t s = .ok (u, s1)) :
    s1.cache t = some u := by
  unfold getUniqueTenantId at h
  split at h
  case h_1 v hc =>
    simp only [Except.ok.injEq, Prod.mk.injEq] at h
    rw [← h.2, ← h.1]
    exact hc
  case h_2 hc =>
    split at h
    case h_1 => exact absurd h (by simp)
    case h_2 cfg hs =>
      split at h
      case h_1 v hu =>
        simp only [Except.ok.injEq, Prod.mk.injEq] at h
        rw [← h.2, ← h.1]
        simp [upd]
      case h_2 hu =>
        simp only [Except.ok.injEq, Prod.mk.injEq] at h
        rw [← h.2, ← h.1]
        simp [upd]

/-- C9: the derivation is idempotent under cache hit — a second immediate
call (no interleaved writers, no expiry) returns the same value and leaves
the world unchanged, both through `getEventTenantId` under SELF hosting and
through `getUniqueTenantId` itself. -/
theorem getEventTenantId_idempotent (env : Env) (gen : Nat → String)
    (t u : String) (s s1 : WState)
    (hself : env.SELF_HOSTED = true)
    (h : getEventTenantId env gen t s = .ok (u, s1)) :
    getEventTenantId env gen t s1 = .ok (u, s1) ∧
    getUniqueTenantId gen t s1 = .ok (u, s1) := by
  rw [getEventTenantId, hself] at h
  simp only [if_true] at h
  have hcache : s1.cache t = some u := cache_after_getUniqueTenantId gen t u s s1 h
  have h2 : getUniqueTenantId gen t s1 = .ok (u, s1) := by
    unfold getUniqueTenantId
    rw [hcache]
  exact ⟨by rw [getEventTenantId, hself]; simpa, h2⟩

/-- Witness for C9: a first self-hosted derivation for `t1` generates
`rnd0_t1`; the immediate second call returns the same value on the cache. -/
theorem getEventTenantId_idempotent_witness :
    wEnvSelf.SELF_HOSTED = true ∧
    getEventTenantId wEnvSelf wGen "t1" wStateUnset = .ok ("rnd0_t1", wStateAfter) ∧
    getEventTenantId wEnvSelf wGen "t1" wStateAfter = .ok ("rnd0_t1", wStateAfter) ∧
    getUniqueTenantId wGen "t1" wStateAfter = .ok ("rnd0_t1", wStateAfter) := by
  have h : getEventTenantId wEnvSelf wGen "t1" wStateUnset = .ok ("rnd0_t1", wStateAfter) := by
    rfl
  have h2 := getEventTenantId_idempotent wEnvSelf wGen "t1" "rnd0_t1" wStateUnset wStateAfter rfl h
  exact ⟨rfl, h, h2.1, h2.2⟩

/-- C10: per successful invocation, `getUniqueTenantId` writes the store at
most once — either the store is completely unchanged (cache hit, or the
field was already persisted), or the cache missed, the read document's
`uniqueTenantId` was unset, and the single write replaces the tenant's
document with one differing from the document read only in
`config.uniqueTenantId` (every other field of `config` and every
document-level field written back exactly as read, no other tenant's
document touched). -/
theorem getUniqueTenantId_store_frame (gen : Nat → String) (t u : String)
    (s s1 : WState) (h : getUniqueTenantId gen t s = .ok (u, s1)) :
    s1.store = s.store ∨
    (s.cache t = none ∧ ∃ cfg, s.store t = some cfg ∧
      cfg.config.uniqueTenantId = none ∧
      s1.store = upd s.store t
        { cfg with config := { cfg.config with uniqueTenantId := some u } }) := by
  unfold getUniqueTenantId at h
  split at h
  case h_1 v hc =>
    left
    simp only [Except.ok.injEq, Prod.mk.injEq] at h
    rw [← h.2]
  case h_2 hc =>
    split at h
    case h_1 => exact absurd h (by simp)
    case h_2 cfg hs =>
      split at h
      case h_1 v hu =>
        left
        simp only [Except.ok.injEq, Prod.mk.injEq] at h
        rw [← h.2]
      case h_2 hu =>
        right
        simp only [Except.ok.injEq, Prod.mk.injEq] at h
        refine ⟨hc, cfg, hs, hu, ?_⟩
        rw [← h.2, ← h.1]

/-- Witness for C10: the generating run on the uninitialised document for
`t1` satisfies the frame condition. -/
theorem getUniqueTenantId_store_frame_witness :
    getUniqueTenantId wGen "t1" wStateUnset = .ok ("rnd0_t1", wStateAfter) ∧
    (wStateAfter.store = wStateUnset.store ∨
      (wStateUnset.cache "t1" = none ∧ ∃ cfg, wStateUnset.store "t1" = some cfg ∧
        cfg.config.uniqueTenantId = none ∧
        wStateAfter.store = upd wStateUnset.store "t1"
          { cfg with config :=
            { cfg.config with uniqueTenantId := some "rnd0_t1" } })) :=
  ⟨rfl, getUniqueTenantId_store_frame wGen "t1" "rnd0_t1" wStateUnset wStateAfter rfl⟩

/-- A user identity context fixture (`UserContext` with no attached
account). -/
def wUserCtx : IdentityContext :=
  { type := IdentityType.USER, _id := "us_abc123", account := none }

/-- An identity context fixture carrying a kind outside the closed set. -/
def wBadCtx : IdentityContext :=
  { type := "banana", _id := "x1", account := none }

/-- C2: with no ambient identity context, `getCurrentIdentity` defaults to
the TENANT kind: the formatted distinct id over the event tenant id, hosting
from the environment, and installationId / tenantId populated. -/
theorem getCurrentIdentity_no_context (env : Env) (installId : String)
    (gen : Nat → String) (ctxTenantId t2 : String) (s s1 : WState)
    (hev : getEventTenantId env gen ctxTenantId s = .ok (t2, s1)) :
    getCurrentIdentity env installId gen none ctxTenantId s =
      .ok
        ({ id := formatDistinctId t2 IdentityType.TENANT
           type := IdentityType.TENANT
           hosting := getHostingFromEnv env
           installationId := some (getInstallationId env installId)
           tenantId := some t2
           verified := none
           accountHolder := none
           providerType := none
           builder := none
           admin := none
           version := none
           profession := none
           companySize := none }, s1) := by
  simp [getCurrentIdentity, identityTypeOf, IdentityType.TENANT,
    IdentityType.INSTALLATION, IdentityType.USER, hev]

/-- Witness for C2 at the cloud environment (the event tenant id is the raw
tenant id there). -/
theorem getCurrentIdentity_no_context_witness :
    getEventTenantId wEnvCloud wGen "t1" wStateSet = .ok ("t1", wStateSet) ∧
    getCurrentIdentity wEnvCloud "inst1" wGen none "t1" wStateSet =
      .ok
        ({ id := formatDistinctId "t1" IdentityType.TENANT
           type := IdentityType.TENANT
           hosting := getHostingFromEnv wEnvCloud
           installationId := some (getInstallationId wEnvCloud "inst1")
           tenantId := some "t1"
           verified := none
           accountHolder := none
           providerType := none
           builder := none
           admin := none
           version := none
           profession := none
           companySize := none }, wStateSet) :=
  ⟨rfl, getCurrentIdentity_no_context wEnvCloud "inst1" wGen "t1" "t1" wStateSet wStateSet rfl⟩

/-- C4: an ambient identity context whose kind lies outside
{INSTALLATION, TENANT, USER} makes `getCurrentIdentity` fail with the
unknown-identity-kind error, producing no identity record. -/
theorem getCurrentIdentity_unknown_kind (env : Env) (installId : String)
    (gen : Nat → String) (ctx : IdentityContext) (ctxTenantId : String)
    (s : WState)
    (h1 : ctx.type ≠ IdentityType.INSTALLATION)
    (h2 : ctx.type ≠ IdentityType.TENANT)
    (h3 : ctx.type ≠ IdentityType.USER) :
    getCurrentIdentity env installId gen (some ctx) ctxTenantId s =
      .error IdErr.unknownIdentityType := by
  simp [getCurrentIdentity, identityTypeOf, h1, h2, h3]

/-- Witness for C4 at the concrete kind `banana`. -/
theorem getCurrentIdentity_unknown_kind_witness :
    wBadCtx.type ≠ IdentityType.INSTALLATION ∧
    wBadCtx.type ≠ IdentityType.TENANT ∧
    wBadCtx.type ≠ IdentityType.USER ∧
    getCurrentIdentity wEnvCloud "inst1" wGen (some wBadCtx) "t1" wStateSet =
      .error IdErr.unknownIdentityType :=
  ⟨by decide, by decide, by decide,
   getCurrentIdentity_unknown_kind wEnvCloud "inst1" wGen wBadCtx "t1" wStateSet
     (by decide) (by decide) (by decide)⟩

/-- C6: for every tenant id and optional account (given the event-tenant-id
derivation succeeds), `identifyTenantGroup` emits exactly two sink calls in
order: an `identifyGroup` whose group record carries the raw (unformatted)
event tenant id, and an `identify` whose record carries the formatted id and
the same hosting, companySize and profession as the group record. -/
theorem identifyTenantGroup_emits_pair (env : Env) (installId : String)
    (gen : Nat → String) (tenantId : String) (account : Option Account)
    (ts : Option Nat) (s s1 : WState) (r : String)
    (hev : getEventTenantId env gen tenantId s = .ok (r, s1)) :
    ∃ g gi, identifyTenantGroup env installId gen tenantId account ts s =
        .ok ([SinkCall.identifyGroup g ts, SinkCall.identify gi ts], s1) ∧
      g.id = r ∧
      gi.id = "$" ++ IdentityType.TENANT ++ "_" ++ r ∧
      gi.hosting = g.hosting ∧
      gi.companySize = g.companySize ∧
      gi.profession = g.profession := by
  unfold identifyTenantGroup
  rw [hev]
  exact ⟨_, _, rfl, rfl, rfl, rfl, rfl, rfl⟩

/-- A fixture account: a verified SSO cloud account linked to platform user
`us_abc123`. -/
def wAccount : Account :=
  { accountId := "acc_1"
    tenantId := "t1"
    hosting := Hosting.cloud
    verified := true
    profession := some "engineer"
    size := some "10+"
    isSSO := true
    providerType := some "google"
    cloudExtension := some { budibaseUserId := some "us_abc123" } }

/-- Witness for C6 at the cloud environment, tenant `t1` and the fixture
account. -/
theorem identifyTenantGroup_emits_pair_witness :
    getEventTenantId wEnvCloud wGen "t1" wStateSet = .ok ("t1", wStateSet) ∧
    (∃ g gi, identifyTenantGroup wEnvCloud "inst1" wGen "t1" (some wAccount)
        (some 42) wStateSet =
        .ok ([SinkCall.identifyGroup g (some 42), SinkCall.identify gi (some 42)],
          wStateSet) ∧
      g.id = "t1" ∧
      gi.id = "$" ++ IdentityType.TENANT ++ "_" ++ "t1" ∧
      gi.hosting = g.hosting ∧
      gi.companySize = g.companySize ∧
      gi.profession = g.profession) :=
  ⟨rfl, identifyTenantGroup_emits_pair wEnvCloud "inst1" wGen "t1" (some wAccount)
    (some 42) wStateSet wStateSet "t1" rfl⟩

/-- C7: when the account's `budibaseUserId` is set (present and non-empty —
the source tests it for JS truthiness), the identity `identifyAccount` emits
carries that linked platform-user id, not `account.accountId`. -/
theorem identifyAccount_linked_user_id (env : Env) (installId : String)
    (account : Account) (b : String)
    (hb : account.budibaseUserId = some b) (hne : b ≠ "") :
    ∃ i, identifyAccount env installId account = [SinkCall.identify i none] ∧
      i.id = b := by
  have hce : ∃ c, account.cloudExtension = some c ∧ c.budibaseUserId = some b := by
    unfold Account.budibaseUserId at hb
    cases h : account.cloudExtension with
    | none => rw [h] at hb; exact absurd hb (by simp)
    | some c => rw [h] at hb; exact ⟨c, rfl, hb⟩
  obtain ⟨c, hc, hcb⟩ := hce
  refine ⟨_, rfl, ?_⟩
  simp [identifyAccount, isCloudAccount, Account.budibaseUserId, hc, hcb, hne]

/-- Witness for C7 at the fixture cloud account, whose linked user id is
`us_abc123`. -/
theorem identifyAccount_linked_user_id_witness :
    wAccount.budibaseUserId = some "us_abc123" ∧ "us_abc123" ≠ "" ∧
    (∃ i, identifyAccount wEnvCloud "inst1" wAccount = [SinkCall.identify i none] ∧
      i.id = "us_abc123") :=
  ⟨rfl, by decide,
   identifyAccount_linked_user_id wEnvCloud "inst1" wAccount "us_abc123" rfl (by decide)⟩

/-- The INSTALLATION branch of `getCurrentIdentity`, as an equation. -/
theorem getCurrentIdentity_installation_branch (env : Env) (installId : String)
    (gen : Nat → String) (ctx : IdentityContext) (ctxTenantId : String)
    (s : WState) (h : ctx.type = IdentityType.INSTALLATION) :
    getCurrentIdentity env installId gen (some ctx) ctxTenantId s =
      .ok
        ({ id := formatDistinctId (getInstallationId env installId)
             IdentityType.INSTALLATION
           type := IdentityType.INSTALLATION
           hosting := getHostingFromEnv env
           installationId := some (getInstallationId env installId)
           tenantId := none
           verified := none
           accountHolder := none
           providerType := none
           builder := none
           admin := none
           version := none
           profession := none
           companySize := none }, s) := by
  simp [getCurrentIdentity, identityTypeOf, h, IdentityType.INSTALLATION]

/-- The TENANT branch of `getCurrentIdentity` (also the default branch when
no identity context is present), as an equation. -/
theorem getCurrentIdentity_tenant_branch (env : Env) (installId : String)
    (gen : Nat → String) (ictx : Option IdentityContext) (ctxTenantId : String)
    (s : WState) (t2 : String) (s1 : WState)
    (h : identityTypeOf ictx = IdentityType.TENANT)
    (hev : getEventTenantId env gen ctxTenantId s = .ok (t2, s1)) :
    getCurrentIdentity env installId gen ictx ctxTenantId s =
      .ok
        ({ id := formatDistinctId t2 IdentityType.TENANT
           type := IdentityType.TENANT
           hosting := getHostingFromEnv env
           installationId := some (getInstallationId env installId)
           tenantId := some t2
           verified := none
           accountHolder := none
           providerType := none
           builder := none
           admin := none
           version := none
           profession := none
           companySize := none }, s1) := by
  simp [getCurrentIdentity, h, IdentityType.TENANT, IdentityType.INSTALLATION,
    hev]

/-- The USER branch of `getCurrentIdentity`, as an equation: note the record
carries only the base identity fields. -/
theorem getCurrentIdentity_user_branch (env : Env) (installId : String)
    (gen : Nat → String) (ctx : IdentityContext) (ctxTenantId : String)
    (s : WState) (t2 : String) (s1 : WState)
    (h : ctx.type = IdentityType.USER)
    (hev : getEventTenantId env gen ctxTenantId s = .ok (t2, s1)) :
    getCurrentIdentity env installId gen (some ctx) ctxTenantId s =
      .ok
        ({ id := ctx._id
           type := IdentityType.USER
           hosting :=
             match ctx.account with
             | some account => account.hosting
             | none => getHostingFromEnv env
           installationId := some (getInstallationId env installId)
           tenantId := some t2
           verified := none
           accountHolder := none
           providerType := none
           builder := none
           admin := none
           version := none
           profession := none
           companySize := none }, s1) := by
  simp [getCurrentIdentity, identityTypeOf, h, IdentityType.USER,
    IdentityType.TENANT, IdentityType.INSTALLATION, hev]

/-- C5: the distinct-id invariant over every identity record the module
produces. INSTALLATION- and TENANT-kind identities (the three
`getCurrentIdentity` branches and the synthetic identities emitted by
`identifyInstallationGroup` / `identifyTenantGroup`) carry the formatted
distinct id `"$" + kind + "_" + rawId`; USER-kind identities
(`getCurrentIdentity`'s USER branch, `identifyUser`, `identifyAccount`)
carry the raw user id, never prefixed. -/
theorem distinct_id_invariant
    (env : Env) (installId pkgVersion : String) (gen : Nat → String)
    (ctxInstall ctxUser : IdentityContext) (ctxTen : Option IdentityContext)
    (ctxTenantId : String)
    (sI sI' sT sT' sU sU' sG sG' sV sV' : WState)
    (iInstall iTen iUser : Identity)
    (tgTenantId : String) (tgAccount uAccount : Option Account)
    (user : User) (account : Account)
    (ts tsG tsU : Option Nat)
    (tgCalls uCalls : List SinkCall)
    (hI : ctxInstall.type = IdentityType.INSTALLATION)
    (hIc : getCurrentIdentity env installId gen (some ctxInstall) ctxTenantId sI =
      .ok (iInstall, sI'))
    (hT : identityTypeOf ctxTen = IdentityType.TENANT)
    (hTc : getCurrentIdentity env installId gen ctxTen ctxTenantId sT =
      .ok (iTen, sT'))
    (hU : ctxUser.type = IdentityType.USER)
    (hUc : getCurrentIdentity env installId gen (some ctxUser) ctxTenantId sU =
      .ok (iUser, sU'))
    (hG : identifyTenantGroup env installId gen tgTenantId tgAccount tsG sG =
      .ok (tgCalls, sG'))
    (hV : identifyUser env installId gen user uAccount tsU sV =
      .ok (uCalls, sV')) :
    (iInstall.type = IdentityType.INSTALLATION ∧
      iInstall.id =
        "$" ++ IdentityType.INSTALLATION ++ "_" ++ getInstallationId env installId) ∧
    (iTen.type = IdentityType.TENANT ∧
      ∃ r, iTen.tenantId = some r ∧
        iTen.id = "$" ++ IdentityType.TENANT ++ "_" ++ r) ∧
    (iUser.type = IdentityType.USER ∧ iUser.id = ctxUser._id) ∧
    (∃ g gi, identifyInstallationGroup env pkgVersion installId ts =
        [SinkCall.identifyGroup g ts, SinkCall.identify gi ts] ∧
      g.id = installId ∧
      gi.id = "$" ++ IdentityType.INSTALLATION ++ "_" ++ installId) ∧
    (∃ g gi, tgCalls = [SinkCall.identifyGroup g tsG, SinkCall.identify gi tsG] ∧
      gi.id = "$" ++ IdentityType.TENANT ++ "_" ++ g.id) ∧
    (∃ i, uCalls = [SinkCall.identify i tsU] ∧ i.id = user._id) ∧
    (∃ i, identifyAccount env installId account = [SinkCall.identify i none] ∧
      (i.id = account.accountId ∨
        ∃ b, account.budibaseUserId = some b ∧ i.id = b)) := by
  refine ⟨?_, ?_, ?_, ?_, ?_, ?_, ?_⟩
  · have h1 :=
      (getCurrentIdentity_installation_branch env installId gen ctxInstall
        ctxTenantId sI hI).symm.trans hIc
    simp only [Except.ok.injEq, Prod.mk.injEq] at h1
    rw [← h1.1]
    exact ⟨rfl, by simp [formatDistinctId, IdentityType.INSTALLATION]⟩
  · cases hev : getEventTenantId env gen ctxTenantId sT with
    | error e =>
      simp [getCurrentIdentity, hT, IdentityType.TENANT,
        IdentityType.INSTALLATION, hev] at hTc
    | ok p =>
      obtain ⟨rT, sT2⟩ := p
      have h1 :=
        (getCurrentIdentity_tenant_branch env installId gen ctxTen ctxTenantId
          sT rT sT2 hT hev).symm.trans hTc
      simp only [Except.ok.injEq, Prod.mk.injEq] at h1
      rw [← h1.1]
      exact ⟨rfl, rT, rfl, by simp [formatDistinctId, IdentityType.TENANT]⟩
  · cases hev : getEventTenantId env gen ctxTenantId sU with
    | error e =>
      simp [getCurrentIdentity, identityTypeOf, hU, IdentityType.USER,
        IdentityType.TENANT, IdentityType.INSTALLATION, hev] at hUc
    | ok p =>
      obtain ⟨rU, sU2⟩ := p
      have h1 :=
        (getCurrentIdentity_user_branch env installId gen ctxUser ctxTenantId
          sU rU sU2 hU hev).symm.trans hUc
      simp only [Except.ok.injEq, Prod.mk.injEq] at h1
      rw [← h1.1]
      exact ⟨rfl, rfl⟩
  · exact ⟨_, _, rfl, rfl, rfl⟩
  · cases hev : getEventTenantId env gen tgTenantId sG with
    | error e =>
      unfold identifyTenantGroup at hG
      rw [hev] at hG
      exact absurd hG (by simp)
    | ok p =>
      obtain ⟨rG, sG2⟩ := p
      unfold identifyTenantGroup at hG
      rw [hev] at hG
      simp only [Except.ok.injEq, Prod.mk.injEq] at hG
      rw [← hG.1]
      exact ⟨_, _, rfl, rfl⟩
  · cases hev : getEventTenantId env gen user.tenantId sV with
    | error e =>
      unfold identifyUser at hV
      rw [hev] at hV
      exact absurd hV (by simp)
    | ok p =>
      obtain ⟨rV, sV2⟩ := p
      unfold identifyUser at hV
      rw [hev] at hV
      simp only [Except.ok.injEq, Prod.mk.injEq] at hV
      rw [← hV.1]
      exact ⟨_, rfl, rfl⟩
  · refine ⟨_, rfl, ?_⟩
    by_cases hca : isCloudAccount account = true
    · cases hbb : account.budibaseUserId with
      | none => left; simp [identifyAccount, hca, hbb]
      | some b =>
        by_cases hbe : b = ""
        · left; simp [identifyAccount, hca, hbb, hbe]
        · right
          refine ⟨b, rfl, ?_⟩
          simp [identifyAccount, hca, hbb, hbe]
    · have hca2 : isCloudAccount account = false := by
        revert hca
        cases isCloudAccount account <;> simp
      left
      simp [identifyAccount, hca2]

/-- An installation identity context fixture. -/
def wCtxInstall : IdentityContext :=
  { type := IdentityType.INSTALLATION, _id := "i0", account := none }

/-- A user fixture linked to the fixture account. -/
def wUser : User :=
  { _id := "us_abc123"
    tenantId := "t1"
    builderGlobal := some true
    adminGlobal := none
    providerType := some "google" }

/-- The identity produced by the INSTALLATION branch at the cloud fixture. -/
def wIdInstall : Identity :=
  { id := "$installation_inst1"
    type := IdentityType.INSTALLATION
    hosting := Hosting.cloud
    installationId := some "inst1"
    tenantId := none
    verified := none
    accountHolder := none
    providerType := none
    builder := none
    admin := none
    version := none
    profession := none
    companySize := none }

/-- The identity produced by the TENANT default branch at the cloud
fixture. -/
def wIdTenant : Identity :=
  { id := "$tenant_t1"
    type := IdentityType.TENANT
    hosting := Hosting.cloud
    installationId := some "inst1"
    tenantId := some "t1"
    verified := none
    accountHolder := none
    providerType := none
    builder := none
    admin := none
    version := none
    profession := none
    companySize := none }

/-- The identity produced by the USER branch at the cloud fixture. -/
def wIdUser : Identity :=
  { id := "us_abc123"
    type := IdentityType.USER
    hosting := Hosting.cloud
    installationId := some "inst1"
    tenantId := some "t1"
    verified := none
    accountHolder := none
    providerType := none
    builder := none
    admin := none
    version := none
    profession := none
    companySize := none }

/-- The tenant group record `identifyTenantGroup` builds at the cloud
fixture with the fixture account. -/
def wTgGroup : GroupRecord :=
  { id := "t1"
    type := IdentityType.TENANT
    hosting := Hosting.cloud
    version := none
    installationId := some "inst1"
    profession := some "engineer"
    companySize := some "10+" }

/-- The two sink calls `identifyTenantGroup` emits at the cloud fixture. -/
def wTgCalls : List SinkCall :=
  [SinkCall.identifyGroup wTgGroup (some 7),
   SinkCall.identify { wTgGroup.toIdentity with id := "$tenant_t1" } (some 7)]

/-- The sink call `identifyUser` emits for the fixture user and account. -/
def wUCalls : List SinkCall :=
  [SinkCall.identify
    { id := "us_abc123"
      type := IdentityType.USER
      hosting := Hosting.cloud
      installationId := some "inst1"
      tenantId := some "t1"
      verified := some true
      accountHolder := some true
      providerType := some "google"
      builder := some true
      admin := some false
      version := none
      profession := none
      companySize := none } (some 8)]

/-- Witness for C5: every hypothesis discharged at the cloud fixture, and
the invariant instantiated there. -/
theorem distinct_id_invariant_witness :
    wCtxInstall.type = IdentityType.INSTALLATION ∧
    getCurrentIdentity wEnvCloud "inst1" wGen (some wCtxInstall) "t1" wStateSet =
      .ok (wIdInstall, wStateSet) ∧
    identityTypeOf none = IdentityType.TENANT ∧
    getCurrentIdentity wEnvCloud "inst1" wGen none "t1" wStateSet =
      .ok (wIdTenant, wStateSet) ∧
    wUserCtx.type = IdentityType.USER ∧
    getCurrentIdentity wEnvCloud "inst1" wGen (some wUserCtx) "t1" wStateSet =
      .ok (wIdUser, wStateSet) ∧
    identifyTenantGroup wEnvCloud "inst1" wGen "t1" (some wAccount) (some 7)
      wStateSet = .ok (wTgCalls, wStateSet) ∧
    identifyUser wEnvCloud "inst1" wGen wUser (some wAccount) (some 8)
      wStateSet = .ok (wUCalls, wStateSet) ∧
    ((wIdInstall.type = IdentityType.INSTALLATION ∧
      wIdInstall.id =
        "$" ++ IdentityType.INSTALLATION ++ "_" ++ getInstallationId wEnvCloud "inst1") ∧
    (wIdTenant.type = IdentityType.TENANT ∧
      ∃ r, wIdTenant.tenantId = some r ∧
        wIdTenant.id = "$" ++ IdentityType.TENANT ++ "_" ++ r) ∧
    (wIdUser.type = IdentityType.USER ∧ wIdUser.id = wUserCtx._id) ∧
    (∃ g gi, identifyInstallationGroup wEnvCloud "2.0.0" "inst1" none =
        [SinkCall.identifyGroup g none, SinkCall.identify gi none] ∧
      g.id = "inst1" ∧
      gi.id = "$" ++ IdentityType.INSTALLATION ++ "_" ++ "inst1") ∧
    (∃ g gi, wTgCalls = [SinkCall.identifyGroup g (some 7), SinkCall.identify gi (some 7)] ∧
      gi.id = "$" ++ IdentityType.TENANT ++ "_" ++ g.id) ∧
    (∃ i, wUCalls = [SinkCall.identify i (some 8)] ∧ i.id = wUser._id) ∧
    (∃ i, identifyAccount wEnvCloud "inst1" wAccount = [SinkCall.identify i none] ∧
      (i.id = wAccount.accountId ∨
        ∃ b, wAccount.budibaseUserId = some b ∧ i.id = b))) :=
  ⟨rfl, rfl, rfl, rfl, rfl, rfl, rfl, rfl,
   distinct_id_invariant wEnvCloud "inst1" "2.0.0" wGen wCtxInstall wUserCtx
     none "t1" wStateSet wStateSet wStateSet wStateSet wStateSet wStateSet
     wStateSet wStateSet wStateSet wStateSet wIdInstall wIdTenant wIdUser
     "t1" (some wAccount) (some wAccount) wUser wAccount none (some 7) (some 8)
     wTgCalls wUCalls rfl rfl rfl rfl rfl rfl rfl rfl⟩

/-- Counterexample to C8: the identity returned by `getCurrentIdentity`'s
USER branch at a concrete input is USER-kind yet carries none of the
`verified`, `accountHolder`, `builder`, `admin` fields the UserIdentity
shape requires — the branch builds a base identity only. -/
theorem getCurrentIdentity_user_lacks_user_fields :
    ∃ i s1,
      getCurrentIdentity wEnvCloud "inst1" wGen (some wUserCtx) "t1" wStateSet =
        .ok (i, s1) ∧
      i.type = IdentityType.USER ∧
      i.verified = none ∧ i.accountHolder = none ∧
      i.builder = none ∧ i.admin = none :=
  ⟨wIdUser, wStateSet, rfl, rfl, rfl, rfl, rfl, rfl⟩

/-- C8 (amended): the UserIdentity shape holds of the records `identifyUser`
emits (verified, accountHolder, builder and admin present, providerType
passed through); `identifyAccount`'s record carries verified and
accountHolder (always true) but no builder or admin field; and
`getCurrentIdentity`'s USER branch emits only the base identity fields
(id, hosting, installationId, tenantId), none of the four UserIdentity
flags. -/
theorem userIdentity_shape_by_producer
    (env : Env) (installId : String) (gen : Nat → String)
    (user : User) (uAccount : Option Account) (account : Account)
    (ctxUser : IdentityContext) (ctxTenantId : String)
    (tsU : Option Nat) (sV sV' sU sU' : WState)
    (uCalls : List SinkCall) (iU : Identity)
    (hV : identifyUser env installId gen user uAccount tsU sV = .ok (uCalls, sV'))
    (hUt : ctxUser.type = IdentityType.USER)
    (hUc : getCurrentIdentity env installId gen (some ctxUser) ctxTenantId sU =
      .ok (iU, sU')) :
    (∃ i, uCalls = [SinkCall.identify i tsU] ∧
      i.type = IdentityType.USER ∧
      (∃ b, i.verified = some b) ∧ (∃ b, i.accountHolder = some b) ∧
      (∃ b, i.builder = some b) ∧ (∃ b, i.admin = some b) ∧
      i.providerType = user.providerType) ∧
    (∃ i, identifyAccount env installId account = [SinkCall.identify i none] ∧
      i.type = IdentityType.USER ∧
      (∃ b, i.verified = some b) ∧ i.accountHolder = some true ∧
      i.builder = none ∧ i.admin = none) ∧
    (iU.type = IdentityType.USER ∧
      iU.verified = none ∧ iU.accountHolder = none ∧
      iU.builder = none ∧ iU.admin = none ∧
      (∃ v, iU.installationId = some v) ∧ (∃ v, iU.tenantId = some v)) := by
  refine ⟨?_, ?_, ?_⟩
  · cases hev : getEventTenantId env gen user.tenantId sV with
    | error e =>
      unfold identifyUser at hV
      rw [hev] at hV
      exact absurd hV (by simp)
    | ok p =>
      obtain ⟨rV, sV2⟩ := p
      unfold identifyUser at hV
      rw [hev] at hV
      simp only [Except.ok.injEq, Prod.mk.injEq] at hV
      rw [← hV.1]
      exact ⟨_, rfl, rfl, ⟨_, rfl⟩, ⟨_, rfl⟩, ⟨_, rfl⟩, ⟨_, rfl⟩, rfl⟩
  · exact ⟨_, rfl, rfl, ⟨_, rfl⟩, rfl, rfl, rfl⟩
  · cases hev : getEventTenantId env gen ctxTenantId sU with
    | error e =>
      simp [getCurrentIdentity, identityTypeOf, hUt, IdentityType.USER,
        IdentityType.TENANT, IdentityType.INSTALLATION, hev] at hUc
    | ok p =>
      obtain ⟨rU, sU2⟩ := p
      have h1 :=
        (getCurrentIdentity_user_branch env installId gen ctxUser ctxTenantId
          sU rU sU2 hUt hev).symm.trans hUc
      simp only [Except.ok.injEq, Prod.mk.injEq] at h1
      rw [← h1.1]
      exact ⟨rfl, rfl, rfl, rfl, rfl, ⟨_, rfl⟩, ⟨_, rfl⟩⟩

/-- Witness for C8 (amended) at the cloud fixture: `identifyUser` on the
fixture user and account, `identifyAccount` on the fixture account, and the
USER branch of `getCurrentIdentity`. -/
theorem userIdentity_shape_by_producer_witness :
    identifyUser wEnvCloud "inst1" wGen wUser (some wAccount) (some 8)
      wStateSet = .ok (wUCalls, wStateSet) ∧
    wUserCtx.type = IdentityType.USER ∧
    getCurrentIdentity wEnvCloud "inst1" wGen (some wUserCtx) "t1" wStateSet =
      .ok (wIdUser, wStateSet) ∧
    ((∃ i, wUCalls = [SinkCall.identify i (some 8)] ∧
      i.type = IdentityType.USER ∧
      (∃ b, i.verified = some b) ∧ (∃ b, i.accountHolder = some b) ∧
      (∃ b, i.builder = some b) ∧ (∃ b, i.admin = some b) ∧
      i.providerType = wUser.providerType) ∧
    (∃ i, identifyAccount wEnvCloud "inst1" wAccount = [SinkCall.identify i none] ∧
      i.type = IdentityType.USER ∧
      (∃ b, i.verified = some b) ∧ i.accountHolder = some true ∧
      i.builder = none ∧ i.admin = none) ∧
    (wIdUser.type = IdentityType.USER ∧
      wIdUser.verified = none ∧ wIdUser.accountHolder = none ∧
      wIdUser.builder = none ∧ wIdUser.admin = none ∧
      (∃ v, wIdUser.installationId = some v) ∧ (∃ v, wIdUser.tenantId = some v))) :=
  ⟨rfl, rfl, rfl,
   userIdentity_shape_by_producer wEnvCloud "inst1" wGen wUser (some wAccount)
     wAccount wUserCtx "t1" (some 8) wStateSet wStateSet wStateSet wStateSet
     wUCalls wIdUser rfl rfl rfl⟩
